import Mathlib

/-!
Shallow embedding of `src/main/resources/cellpose_segment.py`, the VTEA
Cellpose segmentation adapter.

The script is a command-line shim: it decodes an image, optionally reduces a
trailing color axis to grayscale, invokes an external pretrained segmentation
model, casts the returned label mask to unsigned 16-bit, and writes it out.
All external collaborators (`skimage.io.imread`, `skimage.io.imsave`,
`cellpose.models.Cellpose` construction and its `eval` method, and Python's
`float()` parser) are modelled as oracles collected in an `Env` record; each
oracle returns `Except String α`, where `Except.error msg` stands for a raised
Python exception (an `Exception` with message `msg`).

Observable behavior is a trace of `Event`s: lines printed to standard output
and standard error, the printed stack trace, and every call into a
collaborator with the exact arguments the script passes (reads, model
construction, evaluation, writes).  Numeric scalars are modelled as `ℚ`
(Python floats act as real scalars here; none of the claims concerns
floating-point rounding), image arrays as a shape plus a flattened row-major
data list, and label masks as integer arrays.  The `dtype` fragment of one
progress line is not modelled (dtypes are outside the data model); everything
else in the printed strings is reproduced.
-/

set_option autoImplicit false

namespace CellposeSegment

/-- A numeric n-dimensional array as returned by the image decoder:
`shape` is the list of axis lengths, `data` the row-major flattened entries. -/
structure NDArray where
  shape : List Nat
  data : List ℚ
deriving DecidableEq, Repr

/-- An integer label mask as returned by the model evaluation
(`masks` in the source): 0 is background, positive values are object ids. -/
structure LabelArray where
  shape : List Nat
  data : List Int
deriving DecidableEq, Repr

/-- The four outputs of `model.eval(...)` in the source:
`masks, flows, styles, diams`.  Only `masks` is structured; the auxiliary
outputs are carried opaquely (the script discards them). -/
structure EvalResult where
  masks : LabelArray
  flows : List NDArray
  styles : List ℚ
  diams : ℚ
deriving DecidableEq, Repr

/-- One observable step of the script: a printed line, a printed stack
trace, or a call into an external collaborator with its exact arguments. -/
inductive Event where
  | stdoutLine : String → Event
  | stderrLine : String → Event
  | traceback : Event
  | imreadCall : String → Event
  | modelInitCall : Bool → String → Event
  | evalCall : NDArray → Option ℚ → ℚ → ℚ → List Nat → Event
  | imsaveCall : String → LabelArray → Bool → Event
deriving DecidableEq, Repr

/-- The external collaborators of the script, as result oracles.
`Except.error msg` models a raised Python exception with message `msg`.
`modelInit` models `models.Cellpose(gpu=False, model_type=...)` (the model
instance itself carries no data the script inspects), `eval` the instance's
evaluation method, and `parseFloat` Python's `float()` (whose failure is a
`ValueError`). -/
structure Env where
  imread : String → Except String NDArray
  modelInit : String → Except String Unit
  eval : NDArray → Option ℚ → ℚ → ℚ → List Nat → Except String EvalResult
  imsave : String → LabelArray → Except String Unit
  parseFloat : String → Except String ℚ

/-- Line 56 of the source: `diameter=diameter if diameter > 0 else None`.
`none` is the automatic-estimation sentinel. -/
def diameterArg (d : ℚ) : Option ℚ :=
  if d > 0 then some d else none

/-- Line 45 of the source: `np.mean(img[:, :, :3], axis=2)` for an array of
shape `[h, w, c]`: per pixel, the average of the first three channels. -/
def meanFirstThree (a : NDArray) : NDArray :=
  let h := a.shape.getD 0 0
  let w := a.shape.getD 1 0
  let c := a.shape.getD 2 0
  { shape := [h, w]
    data := (List.range (h * w)).map fun p =>
      (a.data.getD (p * c) 0 + a.data.getD (p * c + 1) 0
        + a.data.getD (p * c + 2) 0) / 3 }

/-- Lines 41-45 of the source: the grayscale reduction is attempted only when
`len(img.shape) == 3` and `img.shape[2]` is 3 or 4; otherwise the array is
passed through unchanged. -/
def convertToGrayscale (a : NDArray) : NDArray :=
  if a.shape.length = 3 then
    if a.shape.getD 2 0 = 3 ∨ a.shape.getD 2 0 = 4 then meanFirstThree a
    else a
  else a

/-- `np.uint16` conversion of one integer value: reduction modulo `2 ^ 16`
(Lean's `Int.emod` by a positive modulus is non-negative, matching numpy's
wraparound). -/
def toUint16 (v : Int) : Int :=
  v % 65536

/-- Line 66 of the source: `masks.astype(np.uint16)`. -/
def astypeUint16 (m : LabelArray) : LabelArray :=
  { shape := m.shape, data := m.data.map toUint16 }

/-- `masks.max()` as printed on line 63.  Modelled for the non-empty,
non-negative label arrays the model produces (numpy raises on an empty
array; no claim concerns this progress string). -/
def masksMax (m : LabelArray) : Int :=
  m.data.foldl max 0

/-- The two lines the `except` block prints: `ERROR: {str(e)}` on standard
error, then the full stack trace (`traceback.print_exc()`). -/
def errorTail (msg : String) : List Event :=
  [Event.stderrLine ("ERROR: " ++ msg), Event.traceback]

/-- Events up to and including the `io.imread` call (lines 38-39). -/
def ev1 (input_path : String) : List Event :=
  [Event.stdoutLine ("Loading image from " ++ input_path),
   Event.imreadCall input_path]

/-- Events up to and including the model construction (lines 47-51); `img`
is the already (possibly) grayscale-reduced image, whose shape is printed. -/
def ev2 (input_path : String) (img : NDArray) (model_type : String)
    (diameter : ℚ) : List Event :=
  ev1 input_path ++
    [Event.stdoutLine ("Image shape: " ++ toString img.shape),
     Event.stdoutLine ("Running Cellpose with model=" ++ model_type
       ++ ", diameter=" ++ toString diameter),
     Event.modelInitCall false model_type]

/-- Events up to and including the evaluation call (lines 54-60). -/
def ev3 (input_path : String) (img : NDArray) (model_type : String)
    (diameter flow_threshold cellprob_threshold : ℚ) : List Event :=
  ev2 input_path img model_type diameter ++
    [Event.evalCall img (diameterArg diameter) flow_threshold
      cellprob_threshold [0, 0]]

/-- Events up to and including the `io.imsave` call (lines 63-66). -/
def ev4 (input_path : String) (img : NDArray) (model_type : String)
    (diameter flow_threshold cellprob_threshold : ℚ) (r : EvalResult)
    (output_path : String) : List Event :=
  ev3 input_path img model_type diameter flow_threshold cellprob_threshold ++
    [Event.stdoutLine ("Segmentation complete. Found "
       ++ toString (masksMax r.masks) ++ " objects."),
     Event.imsaveCall output_path (astypeUint16 r.masks) false]

/-- Lines 37-74 of the source: the body of `run_cellpose`, with its
`try`/`except Exception` wrapper.  Returns the Python return value (0 or 1)
together with the trace of observable events, in order. -/
def run_cellpose (env : Env) (input_path output_path : String) (diameter : ℚ)
    (model_type : String) (flow_threshold cellprob_threshold : ℚ) :
    Int × List Event :=
  match env.imread input_path with
  | .error e => (1, ev1 input_path ++ errorTail e)
  | .ok img0 =>
    let img := convertToGrayscale img0
    match env.modelInit model_type with
    | .error e => (1, ev2 input_path img model_type diameter ++ errorTail e)
    | .ok _ =>
      match env.eval img (diameterArg diameter) flow_threshold
          cellprob_threshold [0, 0] with
      | .error e =>
        (1, ev3 input_path img model_type diameter flow_threshold
              cellprob_threshold ++ errorTail e)
      | .ok r =>
        match env.imsave output_path (astypeUint16 r.masks) with
        | .error e =>
          (1, ev4 input_path img model_type diameter flow_threshold
                cellprob_threshold r output_path ++ errorTail e)
        | .ok _ =>
          (0, ev4 input_path img model_type diameter flow_threshold
                cellprob_threshold r output_path ++
              [Event.stdoutLine ("Saved label image to " ++ output_path)])

/-- The usage line printed on a wrong argument count (line 78). -/
def usageString : String :=
  "Usage: python cellpose_segment.py <input> <output> <diameter> <model> <flow_threshold> <cellprob_threshold>"

/-- How the process ends: a `sys.exit(code)` (also the implicit exit with the
code returned by `run_cellpose`), or an exception that escapes the script's
own logic and terminates the interpreter abnormally. -/
inductive MainOutcome where
  | exited : Int → MainOutcome
  | uncaughtException : String → MainOutcome
deriving DecidableEq, Repr

/-- Lines 76-90 of the source: the `__main__` block.  `argv` models
`sys.argv`, so `argv.length = 7` means the program name plus exactly six
positional arguments.  The three `float()` calls run in source order
(indices 3, 5, 6) outside any `try`, so their failure is an uncaught
exception. -/
def main_entry (env : Env) (argv : List String) : MainOutcome × List Event :=
  if argv.length ≠ 7 then
    (.exited 1, [Event.stdoutLine usageString])
  else
    let input_path := argv.getD 1 ""
    let output_path := argv.getD 2 ""
    match env.parseFloat (argv.getD 3 "") with
    | .error e => (.uncaughtException e, [])
    | .ok diameter =>
      let model_type := argv.getD 4 ""
      match env.parseFloat (argv.getD 5 "") with
      | .error e => (.uncaughtException e, [])
      | .ok flow_threshold =>
        match env.parseFloat (argv.getD 6 "") with
        | .error e => (.uncaughtException e, [])
        | .ok cellprob_threshold =>
          let out := run_cellpose env input_path output_path diameter
            model_type flow_threshold cellprob_threshold
          (.exited out.1, out.2)

/-- All five processing steps of one run succeed: decode, model construction,
evaluation (at the arguments the script passes), and write. -/
def allStepsSucceed (env : Env) (input_path output_path : String) (diameter : ℚ)
    (model_type : String) (flow_threshold cellprob_threshold : ℚ) : Prop :=
  ∃ img r, env.imread input_path = .ok img ∧
    env.modelInit model_type = .ok () ∧
    env.eval (convertToGrayscale img) (diameterArg diameter) flow_threshold
      cellprob_threshold [0, 0] = .ok r ∧
    env.imsave output_path (astypeUint16 r.masks) = .ok ()

/-! ### Concrete fixtures (used to instantiate the theorems below) -/

/-- A 1x2 RGB image: shape `[1, 2, 3]`. -/
def testImg : NDArray := ⟨[1, 2, 3], [1, 2, 3, 4, 5, 6]⟩

/-- A rank-4 array whose last axis has length 3. -/
def test4d : NDArray := ⟨[1, 1, 1, 3], [1, 2, 3]⟩

/-- A label mask with one value above 65535. -/
def testMasks : LabelArray := ⟨[1, 2], [3, 70000]⟩

/-- An evaluation result with empty auxiliary outputs. -/
def testResult : EvalResult := ⟨testMasks, [], [], 0⟩

/-- The same masks as `testResult` with different auxiliary outputs. -/
def testResultAux : EvalResult := ⟨testMasks, [testImg], [7], 42⟩

/-- An environment in which every collaborator succeeds (and `float()`
fails exactly on the string "abc"). -/
def testEnv : Env where
  imread := fun _ => .ok testImg
  modelInit := fun _ => .ok ()
  eval := fun _ _ _ _ _ => .ok testResult
  imsave := fun _ _ => .ok ()
  parseFloat := fun s =>
    if s = "abc" then .error "could not convert string to float" else .ok 0

/-- `testEnv` with the evaluation returning different auxiliary outputs. -/
def testEnvAux : Env := { testEnv with eval := fun _ _ _ _ _ => .ok testResultAux }

/-- `testEnv` with a failing image decode. -/
def failEnv : Env := { testEnv with imread := fun _ => .error "No such file or directory" }

/-- A seven-element `sys.argv` whose diameter argument is not a number. -/
def badArgv : List String :=
  ["cellpose_segment.py", "in.tif", "out.tif", "abc", "cyto", "0.4", "0.0"]

/-! ### Helper lemmas -/

theorem getD_map_range (f : ℕ → ℚ) {n p : ℕ} (hp : p < n) :
    ((List.range n).map f).getD p 0 = f p := by
  rw [List.getD_eq_getElem?_getD]
  simp [List.getElem?_map, List.getElem?_range hp]

/-- The two error-report events are a suffix of any trace they are appended
to. -/
theorem errorTail_suffix (msg : String) (l : List Event) :
    List.IsSuffix (errorTail msg) (l ++ errorTail msg) :=
  List.suffix_append l (errorTail msg)

/-- Whenever the decode and the model construction succeed, the script calls
the model evaluation on the (possibly reduced) image with the diameter
sentinel, both thresholds, and `channels=[0, 0]`. -/
theorem evalCall_mem_run (env : Env) (inp out : String) (d : ℚ) (mt : String)
    (ft ct : ℚ) (img : NDArray)
    (h1 : env.imread inp = .ok img)
    (h2 : env.modelInit mt = .ok ()) :
    Event.evalCall (convertToGrayscale img) (diameterArg d) ft ct [0, 0]
      ∈ (run_cellpose env inp out d mt ft ct).2 := by
  simp only [run_cellpose, h1, h2]
  cases h3 : env.eval (convertToGrayscale img) (diameterArg d) ft ct [0, 0] with
  | error e => simp [h3, ev3, ev2, ev1]
  | ok r =>
    cases h4 : env.imsave out (astypeUint16 r.masks) with
    | error e => simp [h3, h4, ev4, ev3, ev2, ev1]
    | ok u => simp [h3, h4, ev4, ev3, ev2, ev1]

/-- Whenever decode, model construction and evaluation succeed, the script
calls the image writer on `output_path` with the uint16-cast masks and
contrast checking disabled. -/
theorem imsaveCall_mem_run (env : Env) (inp out : String) (d : ℚ) (mt : String)
    (ft ct : ℚ) (img : NDArray) (r : EvalResult)
    (h1 : env.imread inp = .ok img)
    (h2 : env.modelInit mt = .ok ())
    (h3 : env.eval (convertToGrayscale img) (diameterArg d) ft ct [0, 0] = .ok r) :
    Event.imsaveCall out (astypeUint16 r.masks) false
      ∈ (run_cellpose env inp out d mt ft ct).2 := by
  simp only [run_cellpose, h1, h2, h3]
  cases h4 : env.imsave out (astypeUint16 r.masks) with
  | error e => simp [h4, ev4, ev3, ev2, ev1]
  | ok u => simp [h4, ev4, ev3, ev2, ev1]

/-! ### Claim theorems -/

/-- C1: on every run in which the evaluation returns a label mask, the raster
handed to the image writer at `output_path` is exactly that mask cast
element-wise to unsigned 16-bit (each value reduced modulo `2 ^ 16`), with
contrast checking disabled (no contrast-stretching or rescaling), so every
label value between 0 and 65535 is preserved exactly, and larger values
silently wrap. -/
theorem c1_uint16_cast_written (env : Env) (inp out : String) (d : ℚ)
    (mt : String) (ft ct : ℚ) (img : NDArray) (r : EvalResult)
    (h1 : env.imread inp = .ok img)
    (h2 : env.modelInit mt = .ok ())
    (h3 : env.eval (convertToGrayscale img) (diameterArg d) ft ct [0, 0] = .ok r) :
    Event.imsaveCall out (astypeUint16 r.masks) false
      ∈ (run_cellpose env inp out d mt ft ct).2 ∧
    (astypeUint16 r.masks).data = r.masks.data.map (fun v => v % 65536) ∧
    (∀ v : Int, 0 ≤ v → v ≤ 65535 → toUint16 v = v) := by
  refine ⟨imsaveCall_mem_run env inp out d mt ft ct img r h1 h2 h3, rfl, ?_⟩
  intro v hv hv'
  simp only [toUint16]
  exact Int.emod_eq_of_lt hv (by omega)

/-- C1 witness: in the all-success environment, with a mask holding the
values 3 and 70000, the written raster is the uint16 cast of the mask. -/
theorem c1_uint16_cast_written_witness :
    Event.imsaveCall "out.tif" (astypeUint16 testResult.masks) false
      ∈ (run_cellpose testEnv "in.tif" "out.tif" 0 "cyto" 0 0).2 ∧
    (astypeUint16 testResult.masks).data =
      testResult.masks.data.map (fun v => v % 65536) ∧
    (∀ v : Int, 0 ≤ v → v ≤ 65535 → toUint16 v = v) :=
  c1_uint16_cast_written testEnv "in.tif" "out.tif" 0 "cyto" 0 0 testImg
    testResult rfl rfl rfl

/-- C2: for every diameter `d ≥ 0`, the evaluation is invoked with
`diameterArg d`; when `d = 0` this is `none` (the automatic-estimation
sentinel), and when `d > 0` it is `some d`, the value unmodified. -/
theorem c2_diameter_sentinel (env : Env) (inp out : String) (d : ℚ)
    (mt : String) (ft ct : ℚ) (img : NDArray)
    (hd : 0 ≤ d)
    (h1 : env.imread inp = .ok img)
    (h2 : env.modelInit mt = .ok ()) :
    Event.evalCall (convertToGrayscale img) (diameterArg d) ft ct [0, 0]
      ∈ (run_cellpose env inp out d mt ft ct).2 ∧
    (d = 0 → diameterArg d = none) ∧
    (0 < d → diameterArg d = some d) := by
  refine ⟨evalCall_mem_run env inp out d mt ft ct img h1 h2, ?_, ?_⟩
  · intro h0
    simp [diameterArg, h0]
  · intro hpos
    simp [diameterArg, hpos]

/-- C2 witness: concrete instance at diameter 0 in the all-success
environment. -/
theorem c2_diameter_sentinel_witness :
    Event.evalCall (convertToGrayscale testImg) (diameterArg 0) 0 0 [0, 0]
      ∈ (run_cellpose testEnv "in.tif" "out.tif" 0 "cyto" 0 0).2 ∧
    ((0 : ℚ) = 0 → diameterArg 0 = none) ∧
    ((0 : ℚ) < 0 → diameterArg 0 = some 0) :=
  c2_diameter_sentinel testEnv "in.tif" "out.tif" 0 "cyto" 0 0 testImg
    (by norm_num) rfl rfl

/-- C3: an array with a trailing channel axis of length 3 or 4 (a rank-3
array whose last axis has length 3 or 4, the script's color-image test) is
replaced by the element-wise average of its first three channels — any
fourth (alpha) channel is ignored, not weighted — and every array without
such a trailing axis is passed onward unchanged. -/
theorem c3_channel_reduction (a : NDArray) :
    ((a.shape.length = 3 ∧ (a.shape.getD 2 0 = 3 ∨ a.shape.getD 2 0 = 4)) →
      convertToGrayscale a = meanFirstThree a ∧
      ∀ p, p < a.shape.getD 0 0 * a.shape.getD 1 0 →
        (convertToGrayscale a).data.getD p 0 =
          (a.data.getD (p * a.shape.getD 2 0) 0
            + a.data.getD (p * a.shape.getD 2 0 + 1) 0
            + a.data.getD (p * a.shape.getD 2 0 + 2) 0) / 3) ∧
    (¬(a.shape.length = 3 ∧ (a.shape.getD 2 0 = 3 ∨ a.shape.getD 2 0 = 4)) →
      convertToGrayscale a = a) := by
  constructor
  · rintro ⟨h3, hc⟩
    have hg : convertToGrayscale a = meanFirstThree a := by
      unfold convertToGrayscale
      rw [if_pos h3, if_pos hc]
    refine ⟨hg, ?_⟩
    intro p hp
    rw [hg]
    simp only [meanFirstThree]
    exact getD_map_range _ hp
  · intro h
    unfold convertToGrayscale
    split_ifs with hlen hc
    · exact absurd ⟨hlen, hc⟩ h
    · rfl
    · rfl

/-- C3 witness: the 1x2 RGB fixture is averaged; pixel 1 receives the mean
of its three channel values. -/
theorem c3_channel_reduction_witness :
    convertToGrayscale testImg = meanFirstThree testImg ∧
    (convertToGrayscale testImg).data.getD 1 0 =
      (testImg.data.getD (1 * testImg.shape.getD 2 0) 0
        + testImg.data.getD (1 * testImg.shape.getD 2 0 + 1) 0
        + testImg.data.getD (1 * testImg.shape.getD 2 0 + 2) 0) / 3 := by
  have h := (c3_channel_reduction testImg).1 (by constructor <;> decide)
  exact ⟨h.1, h.2 1 (by decide)⟩

/-- C9: the command-line layer performs no sign check, and the core treats
every diameter `d ≤ 0` exactly like 0: the evaluation receives the
automatic-estimation sentinel `none`. -/
theorem c9_negative_diameter (env : Env) (inp out : String) (d : ℚ)
    (mt : String) (ft ct : ℚ) (img : NDArray)
    (hd : d ≤ 0)
    (h1 : env.imread inp = .ok img)
    (h2 : env.modelInit mt = .ok ()) :
    diameterArg d = none ∧
    diameterArg d = diameterArg 0 ∧
    Event.evalCall (convertToGrayscale img) none ft ct [0, 0]
      ∈ (run_cellpose env inp out d mt ft ct).2 := by
  have hnone : diameterArg d = none := by
    simp [diameterArg, not_lt.mpr hd]
  refine ⟨hnone, ?_, ?_⟩
  · rw [hnone]
    simp [diameterArg]
  · have := evalCall_mem_run env inp out d mt ft ct img h1 h2
    rwa [hnone] at this

/-- C9 witness: concrete instance at diameter -1. -/
theorem c9_negative_diameter_witness :
    diameterArg (-1) = none ∧
    diameterArg (-1) = diameterArg 0 ∧
    Event.evalCall (convertToGrayscale testImg) none 0 0 [0, 0]
      ∈ (run_cellpose testEnv "in.tif" "out.tif" (-1) "cyto" 0 0).2 :=
  c9_negative_diameter testEnv "in.tif" "out.tif" (-1) "cyto" 0 0 testImg
    (by norm_num) rfl rfl

/-- C10: the grayscale reduction is gated on rank exactly 3: any array whose
rank is not 3 is passed through unchanged (even if its last axis has length
3 or 4), and a rank-3 array whose last axis length is neither 3 nor 4 is
also passed through unchanged. -/
theorem c10_rank_three_only (a : NDArray) :
    (a.shape.length ≠ 3 → convertToGrayscale a = a) ∧
    ((a.shape.getD 2 0 ≠ 3 ∧ a.shape.getD 2 0 ≠ 4) → convertToGrayscale a = a) := by
  unfold convertToGrayscale
  constructor
  · intro h
    simp [h]
  · rintro ⟨h3, h4⟩
    split_ifs with hlen hc
    · rcases hc with hc | hc
      · exact absurd hc h3
      · exact absurd hc h4
    · rfl
    · rfl

/-- C10 witness: the rank-4 fixture with trailing axis of length 3 is not
reduced. -/
theorem c10_rank_three_only_witness :
    convertToGrayscale test4d = test4d :=
  (c10_rank_three_only test4d).1 (by decide)

/-- C4: the core operation returns 0 exactly when decode, channel reduction,
model construction, evaluation and write all complete without an exception;
every exception from those steps is caught (the embedding is a total
function, so nothing propagates), the exception message is printed to
standard error followed by a full stack trace, and 1 is returned. -/
theorem c4_exit_status (env : Env) (inp out : String) (d : ℚ) (mt : String)
    (ft ct : ℚ) :
    ((run_cellpose env inp out d mt ft ct).1 = 0 ↔
      allStepsSucceed env inp out d mt ft ct) ∧
    ((run_cellpose env inp out d mt ft ct).1 = 0 ∨
      ((run_cellpose env inp out d mt ft ct).1 = 1 ∧
        ∃ msg, List.IsSuffix (errorTail msg)
          (run_cellpose env inp out d mt ft ct).2)) := by
  cases h1 : env.imread inp with
  | error e =>
    have hrun : run_cellpose env inp out d mt ft ct =
        (1, ev1 inp ++ errorTail e) := by
      simp only [run_cellpose, h1]
    rw [hrun]
    refine ⟨⟨fun h => ?_, fun hall => ?_⟩,
      Or.inr ⟨rfl, e, errorTail_suffix e (ev1 inp)⟩⟩
    · simp at h
    · simp only [allStepsSucceed] at hall
      obtain ⟨img, r, hr, -⟩ := hall
      rw [h1] at hr
      simp at hr
  | ok img =>
    cases h2 : env.modelInit mt with
    | error e =>
      have hrun : run_cellpose env inp out d mt ft ct =
          (1, ev2 inp (convertToGrayscale img) mt d ++ errorTail e) := by
        simp only [run_cellpose, h1, h2]
      rw [hrun]
      refine ⟨⟨fun h => ?_, fun hall => ?_⟩,
        Or.inr ⟨rfl, e, errorTail_suffix e _⟩⟩
      · simp at h
      · simp only [allStepsSucceed] at hall
        obtain ⟨img', r, -, hm, -⟩ := hall
        rw [h2] at hm
        simp at hm
    | ok u =>
      cases u
      cases h3 : env.eval (convertToGrayscale img) (diameterArg d) ft ct [0, 0] with
      | error e =>
        have hrun : run_cellpose env inp out d mt ft ct =
            (1, ev3 inp (convertToGrayscale img) mt d ft ct ++ errorTail e) := by
          simp only [run_cellpose, h1, h2]
          simp only [h3]
        rw [hrun]
        refine ⟨⟨fun h => ?_, fun hall => ?_⟩,
          Or.inr ⟨rfl, e, errorTail_suffix e _⟩⟩
        · simp at h
        · simp only [allStepsSucceed] at hall
          obtain ⟨img', r, hr, -, he, -⟩ := hall
          rw [h1] at hr
          injection hr with hi
          subst hi
          rw [h3] at he
          simp at he
      | ok r =>
        cases h4 : env.imsave out (astypeUint16 r.masks) with
        | error e =>
          have hrun : run_cellpose env inp out d mt ft ct =
              (1, ev4 inp (convertToGrayscale img) mt d ft ct r out
                    ++ errorTail e) := by
            simp only [run_cellpose, h1, h2]
            simp only [h3, h4]
          rw [hrun]
          refine ⟨⟨fun h => ?_, fun hall => ?_⟩,
            Or.inr ⟨rfl, e, errorTail_suffix e _⟩⟩
          · simp at h
          · simp only [allStepsSucceed] at hall
            obtain ⟨img', r', hr, -, he, hs⟩ := hall
            rw [h1] at hr
            injection hr with hi
            subst hi
            rw [h3] at he
            injection he with hrr
            subst hrr
            rw [h4] at hs
            simp at hs
        | ok u2 =>
          cases u2
          have hrun : run_cellpose env inp out d mt ft ct =
              (0, ev4 inp (convertToGrayscale img) mt d ft ct r out ++
                    [Event.stdoutLine ("Saved label image to " ++ out)]) := by
            simp only [run_cellpose, h1, h2]
            simp only [h3, h4]
          rw [hrun]
          refine ⟨⟨fun _ => ?_, fun _ => rfl⟩, Or.inl rfl⟩
          simp only [allStepsSucceed]
          exact ⟨img, r, h1, h2, h3, h4⟩

/-- C4 witness: the theorem instantiated in the all-success environment. -/
theorem c4_exit_status_witness :
    ((run_cellpose testEnv "in.tif" "out.tif" 0 "cyto" 0 0).1 = 0 ↔
      allStepsSucceed testEnv "in.tif" "out.tif" 0 "cyto" 0 0) ∧
    ((run_cellpose testEnv "in.tif" "out.tif" 0 "cyto" 0 0).1 = 0 ∨
      ((run_cellpose testEnv "in.tif" "out.tif" 0 "cyto" 0 0).1 = 1 ∧
        ∃ msg, List.IsSuffix (errorTail msg)
          (run_cellpose testEnv "in.tif" "out.tif" 0 "cyto" 0 0).2)) :=
  c4_exit_status testEnv "in.tif" "out.tif" 0 "cyto" 0 0

/-- C5: with any `sys.argv` whose length is not 7 (program name plus exactly
six positional arguments), the program prints the usage string to standard
output and exits with status 1, without any image read or write and without
reaching the segmentation core. -/
theorem c5_usage_exit (env : Env) (argv : List String) (h : argv.length ≠ 7) :
    main_entry env argv = (.exited 1, [Event.stdoutLine usageString]) ∧
    (∀ p, Event.imreadCall p ∉ (main_entry env argv).2) ∧
    (∀ p m b, Event.imsaveCall p m b ∉ (main_entry env argv).2) ∧
    (∀ i dm f c ch, Event.evalCall i dm f c ch ∉ (main_entry env argv).2) := by
  have hmain : main_entry env argv = (.exited 1, [Event.stdoutLine usageString]) := by
    unfold main_entry
    rw [if_pos h]
  refine ⟨hmain, ?_, ?_, ?_⟩ <;> intros <;> rw [hmain] <;> simp

/-- C5 witness: a one-element `sys.argv` (no positional arguments). -/
theorem c5_usage_exit_witness :
    main_entry testEnv ["cellpose_segment.py"] =
      (.exited 1, [Event.stdoutLine usageString]) ∧
    Event.imreadCall "in.tif" ∉ (main_entry testEnv ["cellpose_segment.py"]).2 ∧
    Event.imsaveCall "out.tif" testMasks false
      ∉ (main_entry testEnv ["cellpose_segment.py"]).2 ∧
    Event.evalCall testImg none 0 0 [0, 0]
      ∉ (main_entry testEnv ["cellpose_segment.py"]).2 :=
  ⟨(c5_usage_exit testEnv ["cellpose_segment.py"] (by decide)).1,
   (c5_usage_exit testEnv ["cellpose_segment.py"] (by decide)).2.1 "in.tif",
   (c5_usage_exit testEnv ["cellpose_segment.py"] (by decide)).2.2.1
     "out.tif" testMasks false,
   (c5_usage_exit testEnv ["cellpose_segment.py"] (by decide)).2.2.2
     testImg none 0 0 [0, 0]⟩

/-- C6: when the image decode fails, the run prints the loading line, makes
the read call, prints `ERROR:` with the failure message to standard error
plus the stack trace, and returns 1; no write call ever happens, so no
output file is created. -/
theorem c6_decode_failure (env : Env) (inp out : String) (d : ℚ) (mt : String)
    (ft ct : ℚ) (e : String)
    (h : env.imread inp = .error e) :
    run_cellpose env inp out d mt ft ct =
      (1, [Event.stdoutLine ("Loading image from " ++ inp),
           Event.imreadCall inp,
           Event.stderrLine ("ERROR: " ++ e), Event.traceback]) ∧
    (∀ p m b, Event.imsaveCall p m b ∉ (run_cellpose env inp out d mt ft ct).2) := by
  have hrun : run_cellpose env inp out d mt ft ct =
      (1, ev1 inp ++ errorTail e) := by
    simp only [run_cellpose, h]
  constructor
  · rw [hrun]
    rfl
  · intro p m b
    rw [hrun]
    simp [ev1, errorTail]

/-- C6 witness: a failing decode in an otherwise healthy environment. -/
theorem c6_decode_failure_witness :
    run_cellpose failEnv "missing.tif" "out.tif" 0 "cyto" 0 0 =
      (1, [Event.stdoutLine ("Loading image from " ++ "missing.tif"),
           Event.imreadCall "missing.tif",
           Event.stderrLine ("ERROR: " ++ "No such file or directory"),
           Event.traceback]) ∧
    Event.imsaveCall "out.tif" (astypeUint16 testMasks) false
      ∉ (run_cellpose failEnv "missing.tif" "out.tif" 0 "cyto" 0 0).2 :=
  ⟨(c6_decode_failure failEnv "missing.tif" "out.tif" 0 "cyto" 0 0
      "No such file or directory" rfl).1,
   (c6_decode_failure failEnv "missing.tif" "out.tif" 0 "cyto" 0 0
      "No such file or directory" rfl).2 "out.tif" (astypeUint16 testMasks) false⟩

/-- C7: every successful invocation calls the evaluation with the (possibly
channel-reduced) image, both thresholds unmodified and the fixed channel
specification `[0, 0]` (grayscale, no nuclear channel); of the four outputs
only the label mask is consumed — replacing the flow fields, style vectors
and diameters by anything else (same masks) leaves the entire observable
run unchanged. -/
theorem c7_eval_interface (env env' : Env) (inp out : String) (d : ℚ)
    (mt : String) (ft ct : ℚ) (img : NDArray) (r : EvalResult)
    (h1 : env.imread inp = .ok img)
    (h2 : env.modelInit mt = .ok ())
    (h3 : env.eval (convertToGrayscale img) (diameterArg d) ft ct [0, 0] = .ok r) :
    Event.evalCall (convertToGrayscale img) (diameterArg d) ft ct [0, 0]
      ∈ (run_cellpose env inp out d mt ft ct).2 ∧
    Event.imsaveCall out (astypeUint16 r.masks) false
      ∈ (run_cellpose env inp out d mt ft ct).2 ∧
    (∀ r' : EvalResult, r'.masks = r.masks →
      env'.imread = env.imread → env'.modelInit = env.modelInit →
      env'.imsave = env.imsave →
      env'.eval (convertToGrayscale img) (diameterArg d) ft ct [0, 0] = .ok r' →
      run_cellpose env' inp out d mt ft ct = run_cellpose env inp out d mt ft ct) := by
  refine ⟨evalCall_mem_run env inp out d mt ft ct img h1 h2,
    imsaveCall_mem_run env inp out d mt ft ct img r h1 h2 h3, ?_⟩
  intro r' hm e1 e2 e3 he
  simp only [run_cellpose, e1, e2, e3, h1, h2, h3, he, ev4, hm]

/-- C7 witness: swapping in nonempty auxiliary outputs with the same masks
leaves the run of the all-success environment unchanged. -/
theorem c7_eval_interface_witness :
    Event.evalCall (convertToGrayscale testImg) (diameterArg 0) 0 0 [0, 0]
      ∈ (run_cellpose testEnv "in.tif" "out.tif" 0 "cyto" 0 0).2 ∧
    Event.imsaveCall "out.tif" (astypeUint16 testResult.masks) false
      ∈ (run_cellpose testEnv "in.tif" "out.tif" 0 "cyto" 0 0).2 ∧
    run_cellpose testEnvAux "in.tif" "out.tif" 0 "cyto" 0 0 =
      run_cellpose testEnv "in.tif" "out.tif" 0 "cyto" 0 0 :=
  let h := c7_eval_interface testEnv testEnvAux "in.tif" "out.tif" 0 "cyto" 0 0
    testImg testResult rfl rfl rfl
  ⟨h.1, h.2.1, h.2.2 testResultAux rfl rfl rfl rfl rfl⟩

/-- C8: with exactly six positional arguments, a failure of any of the three
`float()` parses (diameter, flow threshold, cell probability threshold) is
not caught by the script's own logic: it escapes as an uncaught exception
(no `sys.exit`, empty trace, in particular no `ERROR:` line), and the
process terminates abnormally. -/
theorem c8_parse_failure_uncaught (env : Env) (argv : List String)
    (h7 : argv.length = 7)
    (hfail : (∃ e, env.parseFloat (argv.getD 3 "") = .error e) ∨
      (∃ e, env.parseFloat (argv.getD 5 "") = .error e) ∨
      (∃ e, env.parseFloat (argv.getD 6 "") = .error e)) :
    (∃ msg, main_entry env argv = (.uncaughtException msg, [])) ∧
    (∀ code evs, main_entry env argv ≠ (.exited code, evs)) ∧
    (∀ s, Event.stderrLine s ∉ (main_entry env argv).2) := by
  have h7' : ¬argv.length ≠ 7 := not_not.mpr h7
  have hmain : ∃ msg, main_entry env argv = (.uncaughtException msg, []) := by
    cases hp3 : env.parseFloat (argv.getD 3 "") with
    | error e =>
      exact ⟨e, by simp only [main_entry, if_neg h7', hp3]⟩
    | ok dval =>
      cases hp5 : env.parseFloat (argv.getD 5 "") with
      | error e =>
        exact ⟨e, by simp only [main_entry, if_neg h7', hp3, hp5]⟩
      | ok fval =>
        cases hp6 : env.parseFloat (argv.getD 6 "") with
        | error e =>
          exact ⟨e, by simp only [main_entry, if_neg h7', hp3, hp5, hp6]⟩
        | ok cval =>
          exfalso
          rcases hfail with ⟨e, he⟩ | ⟨e, he⟩ | ⟨e, he⟩
          · rw [hp3] at he
            simp at he
          · rw [hp5] at he
            simp at he
          · rw [hp6] at he
            simp at he
  obtain ⟨msg, hm⟩ := hmain
  refine ⟨⟨msg, hm⟩, ?_, ?_⟩
  · intro code evs
    rw [hm]
    simp
  · intro s
    rw [hm]
    simp

/-- C8 witness: six positional arguments with the non-numeric diameter
"abc". -/
theorem c8_parse_failure_uncaught_witness :
    (∃ msg, main_entry testEnv badArgv = (.uncaughtException msg, [])) ∧
    main_entry testEnv badArgv ≠ (.exited 1, []) ∧
    Event.stderrLine "ERROR: x" ∉ (main_entry testEnv badArgv).2 :=
  let h := c8_parse_failure_uncaught testEnv badArgv (by decide)
    (Or.inl ⟨"could not convert string to float", rfl⟩)
  ⟨h.1, h.2.1 1 [], h.2.2 "ERROR: x"⟩

end CellposeSegment
